import Mathlib

/-!
Verification of the LLMCore provider-routing layer (`src/core/router.ts` and the
configuration surface it consumes from `src/core/config.ts`).

The embedding below translates the router's data model and operations into
executable Lean definitions:

* JavaScript `number` arithmetic on metrics and delays is modelled with `ℚ`
  (all involved computations are exact on the values the code produces);
  timestamps (`Date.now()`, `Date.getTime()`) are modelled as `Nat`
  milliseconds threaded explicitly through the operations that read the clock.
* The `Map<ProviderName, ...>` registry and metrics store are modelled as a
  registration-ordered list of names plus a partial function to metrics.
* Provider backends are external black boxes; a provider's `chat` is modelled
  as a function from the 1-based attempt index of the surrounding call site to
  either a response or an already-classified `LLMCoreError` (the router's
  `mapProviderError` is the identity on such classified errors).
* The injected `ConfigurationManager` values (`getRetryConfig`,
  `getFallbackConfig`, `getDefaultProvider`) and the `RouterOptions` are
  bundled into one immutable `RouterConfig`, mirroring how the router reads
  them; `getDefaultProvider` may throw, which the router swallows, so it is
  modelled as an `Option`.
* `chat` returns, besides its result and the updated state, two
  instrumentation fields (`usedFallback`, `attempts`) recording which code
  path ran; they influence nothing else.
-/

/-- The provider identifiers supported by `createProvider` in the router. -/
inductive ProviderName where
  | openai
  | claude
  | groq
  | grok
deriving DecidableEq, Repr

/-- `LLMCoreError` from `types/providers.ts`: the classified error shape that
crosses the router boundary.  The `type` field is the error-taxonomy kind. -/
structure LLMCoreError where
  name : String
  type : String
  code : String
  message : String
  provider : String
  retryable : Bool
  timestamp : Nat
deriving DecidableEq, Repr

/-- A chat response, abstracted to an identifying payload (the router never
inspects response contents). -/
structure ChatResponse where
  id : String
deriving DecidableEq, Repr

/-- The parts of `ChatRequest` the router inspects: the optional explicit
`provider` field and the `model` name. -/
structure ChatRequest where
  provider : Option ProviderName
  model : String
deriving DecidableEq, Repr

/-- `ProviderMetrics` from `router.ts`. -/
structure ProviderMetrics where
  requests : Nat
  failures : Nat
  successRate : ℚ
  averageLatency : ℚ
  lastFailure : Option Nat
  isCircuitOpen : Bool
deriving DecidableEq, Repr

/-- The immutable policy surface the router reads: `RouterOptions` (with the
constructor defaults already merged) together with the values produced by the
configuration manager's `getRetryConfig`, `getFallbackConfig` and
`getDefaultProvider`. -/
structure RouterConfig where
  enableFallback : Bool
  retryDelay : ℚ
  circuitBreakerEnabled : Bool
  failureThreshold : Nat
  resetTimeout : Nat
  maxAttempts : Nat
  backoffMultiplier : ℚ
  maxDelay : ℚ
  fallbackEnabled : Bool
  fallbackProviders : List ProviderName
  defaultProvider : Option ProviderName

/-- The router's mutable state: the registry (`providers` map, in registration
order) and the metrics store. -/
structure RouterState where
  providers : List ProviderName
  metrics : ProviderName → Option ProviderMetrics

/-- `createRouterError`: every router-internal error has `type: "network"`,
`provider: "router"` and `retryable: false`. -/
def createRouterError (code message : String) (now : Nat) : LLMCoreError :=
  { name := "LLMCoreError"
    type := "network"
    code := code
    message := message
    provider := "router"
    retryable := false
    timestamp := now }

/-- `isRetryableError`: retry on `rate_limit` / `server_error` / `network`
kinds or an explicit `retryable: true` flag.  (The guard for non-object
errors is vacuous here: all modelled errors are classified objects.) -/
def isRetryableError (e : LLMCoreError) : Bool :=
  e.type == "rate_limit" || e.type == "server_error" || e.type == "network" ||
    e.retryable

/-- `mapProviderError`: an error that already carries a `type` field is
returned unchanged; in this embedding every provider error is classified. -/
def mapProviderError (e : LLMCoreError) (_provider : ProviderName) : LLMCoreError :=
  e

/-- The effective failure threshold: `failureThreshold || 5` in
`shouldOpenCircuitBreaker` (JavaScript `||` maps `0` to the default). -/
def effFailureThreshold (cfg : RouterConfig) : Nat :=
  if cfg.failureThreshold = 0 then 5 else cfg.failureThreshold

/-- The effective reset timeout: `resetTimeout || 60000` in
`shouldResetCircuitBreaker`. -/
def effResetTimeout (cfg : RouterConfig) : Nat :=
  if cfg.resetTimeout = 0 then 60000 else cfg.resetTimeout

/-- `shouldOpenCircuitBreaker`: the breaker opens once the failure count
reaches the threshold. -/
def shouldOpenCircuitBreaker (cfg : RouterConfig) (failures : Nat) : Bool :=
  decide (effFailureThreshold cfg ≤ failures)

/-- `shouldResetCircuitBreaker`: true when there is no recorded failure or
more than the reset timeout has passed since the last one. -/
def shouldResetCircuitBreaker (cfg : RouterConfig) (m : ProviderMetrics) (now : Nat) : Bool :=
  match m.lastFailure with
  | none => true
  | some t => decide ((effResetTimeout cfg : Int) < (now : Int) - (t : Int))

/-- `initializeMetrics`: the metrics record created at registration. -/
def initialMetrics : ProviderMetrics :=
  { requests := 0
    failures := 0
    successRate := 1
    averageLatency := 0
    lastFailure := none
    isCircuitOpen := false }

/-- `recordSuccess`: bump `requests`, fold the latency into the rolling
average, recompute `successRate`, and close an open breaker when the reset
timeout has already elapsed.  A provider without a metrics entry is left
untouched (`if (!metrics) return`). -/
def recordSuccess (cfg : RouterConfig) (s : RouterState) (p : ProviderName)
    (latency : ℚ) (now : Nat) : RouterState :=
  match s.metrics p with
  | none => s
  | some m =>
    let requests := m.requests + 1
    let averageLatency := (m.averageLatency * ((requests : ℚ) - 1) + latency) / (requests : ℚ)
    let successRate := ((requests : ℚ) - (m.failures : ℚ)) / (requests : ℚ)
    let isCircuitOpen :=
      if m.isCircuitOpen && shouldResetCircuitBreaker cfg m now then false
      else m.isCircuitOpen
    { s with
      metrics := fun q =>
        if q = p then
          some { m with
                 requests := requests
                 averageLatency := averageLatency
                 successRate := successRate
                 isCircuitOpen := isCircuitOpen }
        else s.metrics q }

/-- `recordFailure`: bump `requests` and `failures`, recompute `successRate`,
stamp `lastFailure`, and open the breaker when enabled and over threshold. -/
def recordFailure (cfg : RouterConfig) (s : RouterState) (p : ProviderName)
    (now : Nat) : RouterState :=
  match s.metrics p with
  | none => s
  | some m =>
    let requests := m.requests + 1
    let failures := m.failures + 1
    let successRate := ((requests : ℚ) - (failures : ℚ)) / (requests : ℚ)
    let isCircuitOpen :=
      if cfg.circuitBreakerEnabled && shouldOpenCircuitBreaker cfg failures then true
      else m.isCircuitOpen
    { s with
      metrics := fun q =>
        if q = p then
          some { m with
                 requests := requests
                 failures := failures
                 successRate := successRate
                 lastFailure := some now
                 isCircuitOpen := isCircuitOpen }
        else s.metrics q }

/-- `resetCircuitBreaker`: close the breaker, zero `failures`, and delete
`lastFailure` — `requests`, `successRate` and `averageLatency` are kept. -/
def resetCircuitBreaker (s : RouterState) (p : ProviderName) : RouterState :=
  match s.metrics p with
  | none => s
  | some m =>
    { s with
      metrics := fun q =>
        if q = p then
          some { m with isCircuitOpen := false, failures := 0, lastFailure := none }
        else s.metrics q }

/-- `isProviderAvailable`: registered and with a closed breaker. -/
def isProviderAvailable (s : RouterState) (p : ProviderName) : Bool :=
  if p ∈ s.providers then
    match s.metrics p with
    | some m => !m.isCircuitOpen
    | none => false
  else false

/-- `getAvailableProviders`: `Array.from(this.providers.keys())` — all
registered names, in registration order. -/
def getAvailableProviders (s : RouterState) : List ProviderName :=
  s.providers

/-- `getMetrics` for a single provider (the map copy is observation-only). -/
def getMetric (s : RouterState) (p : ProviderName) : Option ProviderMetrics :=
  s.metrics p

/-- Whether `p`'s circuit breaker is currently open. -/
def circuitOpen (s : RouterState) (p : ProviderName) : Bool :=
  match s.metrics p with
  | some m => m.isCircuitOpen
  | none => false

/-- `getProviderForModel`: the static model → provider lookup table. -/
def getProviderForModel (model : String) : Option ProviderName :=
  if model == "gpt-4" then some .openai
  else if model == "gpt-4-turbo-preview" then some .openai
  else if model == "gpt-4-0125-preview" then some .openai
  else if model == "gpt-4o" then some .openai
  else if model == "gpt-4o-mini" then some .openai
  else if model == "gpt-3.5-turbo" then some .openai
  else if model == "gpt-3.5-turbo-16k" then some .openai
  else if model == "claude-3-5-sonnet-20241022" then some .claude
  else if model == "claude-3-opus-20240229" then some .claude
  else if model == "claude-3-sonnet-20240229" then some .claude
  else if model == "claude-3-haiku-20240307" then some .claude
  else if model == "llama-3.1-70b-versatile" then some .groq
  else if model == "llama-3.1-8b-instant" then some .groq
  else if model == "mixtral-8x7b-32768" then some .groq
  else if model == "gemma-7b-it" then some .groq
  else if model == "gemma2-9b-it" then some .groq
  else if model == "grok-beta" then some .grok
  else if model == "grok-vision-beta" then some .grok
  else none

/-- Precedence step 4 of `selectProvider`: the first registered provider
with a closed breaker, in registration order. -/
def selectAnyAvailable (s : RouterState) : Option ProviderName :=
  s.providers.find? (fun q => isProviderAvailable s q)

/-- Precedence step 3 of `selectProvider`: the configured default provider if
available (a throwing `getDefaultProvider` is the `none` case). -/
def selectByDefault (cfg : RouterConfig) (s : RouterState) : Option ProviderName :=
  match cfg.defaultProvider with
  | some d => if isProviderAvailable s d then some d else selectAnyAvailable s
  | none => selectAnyAvailable s

/-- Precedence step 2 of `selectProvider`: the provider implied by the model. -/
def selectByModel (cfg : RouterConfig) (s : RouterState) (req : ChatRequest) :
    Option ProviderName :=
  match getProviderForModel req.model with
  | some q => if isProviderAvailable s q then some q else selectByDefault cfg s
  | none => selectByDefault cfg s

/-- `selectProvider`: explicit request provider, then model, then default,
then any available registered provider. -/
def selectProvider (cfg : RouterConfig) (s : RouterState) (req : ChatRequest) :
    Option ProviderName :=
  match req.provider with
  | some p => if isProviderAvailable s p then some p else selectByModel cfg s req
  | none => selectByModel cfg s req

/-- Outcome of `executeWithRetry`: the final result, the number of provider
calls made, and the backoff delays slept between attempts, in order. -/
structure RetryOutcome where
  result : Except LLMCoreError ChatResponse
  calls : Nat
  delays : List ℚ
deriving Repr

/-- Models `throw lastError!` when the retry loop body never ran (reachable
only with `maxAttempts = 0`, which `getRetryConfig` never produces). -/
def undefinedLastError : LLMCoreError :=
  { name := "LLMCoreError"
    type := "unknown"
    code := "UNREACHABLE"
    message := "retry loop made no attempts"
    provider := "router"
    retryable := false
    timestamp := 0 }

/-- The loop of `executeWithRetry`: `attempt` is the 1-based attempt index,
`fuel` the number of attempts still allowed (`maxAttempts - attempt + 1`).
A non-retryable error or the last attempt's error is rethrown immediately;
otherwise the loop sleeps `min(retryDelay * backoffMultiplier^(attempt-1),
maxDelay)` and retries. -/
def retryGo (cfg : RouterConfig) (b : Nat → Except LLMCoreError ChatResponse) :
    Nat → Nat → RetryOutcome
  | _, 0 => { result := Except.error undefinedLastError, calls := 0, delays := [] }
  | attempt, fuel + 1 =>
    match b attempt with
    | Except.ok r => { result := Except.ok r, calls := 1, delays := [] }
    | Except.error e =>
      if !isRetryableError e then
        { result := Except.error e, calls := 1, delays := [] }
      else if fuel = 0 then
        { result := Except.error e, calls := 1, delays := [] }
      else
        let d := min (cfg.retryDelay * cfg.backoffMultiplier ^ (attempt - 1)) cfg.maxDelay
        let rest := retryGo cfg b (attempt + 1) fuel
        { result := rest.result, calls := rest.calls + 1, delays := d :: rest.delays }

/-- `executeWithRetry` for a single provider behaviour `b` (attempt index ↦
call outcome). -/
def executeWithRetry (cfg : RouterConfig) (b : Nat → Except LLMCoreError ChatResponse) :
    RetryOutcome :=
  retryGo cfg b 1 cfg.maxAttempts

/-- The candidate loop of `executeWithFallback`: skip the excluded provider
and unavailable candidates; call each remaining candidate once; on its
failure record the failure and continue; note that a candidate's success is
returned without recording it in the metrics store. -/
def fallbackGo (cfg : RouterConfig) (b : ProviderName → Nat → Except LLMCoreError ChatResponse)
    (exclude : ProviderName) (now : Nat) :
    RouterState → List ProviderName → Except LLMCoreError ChatResponse × RouterState
  | s, [] => (Except.error (createRouterError "ALL_FALLBACKS_FAILED" "All fallback providers failed" now), s)
  | s, p :: rest =>
    if p = exclude ∨ isProviderAvailable s p = false then
      fallbackGo cfg b exclude now s rest
    else
      match b p 1 with
      | Except.ok r => (Except.ok r, s)
      | Except.error _ => fallbackGo cfg b exclude now (recordFailure cfg s p now) rest

/-- `executeWithFallback`: fail fast when the configuration manager reports
fallback disabled, otherwise walk the configured candidate list. -/
def executeWithFallback (cfg : RouterConfig) (s : RouterState)
    (b : ProviderName → Nat → Except LLMCoreError ChatResponse)
    (exclude : ProviderName) (now : Nat) :
    Except LLMCoreError ChatResponse × RouterState :=
  if cfg.fallbackEnabled = false then
    (Except.error (createRouterError "FALLBACK_DISABLED" "Fallback is disabled" now), s)
  else
    fallbackGo cfg b exclude now s cfg.fallbackProviders

/-- Result of one `chat` call: the caller-visible result, the state after the
call, and instrumentation recording whether the fallback chain ran and how
many provider calls the retry phase made. -/
structure ChatResult where
  result : Except LLMCoreError ChatResponse
  state : RouterState
  usedFallback : Bool
  attempts : Nat

/-- `chat`: select a provider, run it under the retry executor, record the
terminal outcome for the selected provider, and on a retryable final error
with fallback enabled hand over to the fallback chain. -/
def chat (cfg : RouterConfig) (s : RouterState) (req : ChatRequest)
    (b : ProviderName → Nat → Except LLMCoreError ChatResponse)
    (latency : ℚ) (now : Nat) : ChatResult :=
  match selectProvider cfg s req with
  | none =>
    { result := Except.error (createRouterError "NO_PROVIDER_AVAILABLE" "No suitable provider available for request" now)
      state := s
      usedFallback := false
      attempts := 0 }
  | some p =>
    let o := executeWithRetry cfg (b p)
    match o.result with
    | Except.ok r =>
      { result := Except.ok r
        state := recordSuccess cfg s p latency now
        usedFallback := false
        attempts := o.calls }
    | Except.error e =>
      let s1 := recordFailure cfg s p now
      if cfg.enableFallback && isRetryableError e then
        let fb := executeWithFallback cfg s1 b p now
        { result := fb.1, state := fb.2, usedFallback := true, attempts := o.calls }
      else
        { result := Except.error (mapProviderError e p), state := s1, usedFallback := false, attempts := o.calls }

/-- The varying inputs of one `chat` call: the request, the providers'
behaviour during the call, the observed latency and the clock reading. -/
structure ChatInput where
  req : ChatRequest
  b : ProviderName → Nat → Except LLMCoreError ChatResponse
  latency : ℚ
  now : Nat

/-- The state transition of one `chat` call. -/
def chatStep (cfg : RouterConfig) (s : RouterState) (i : ChatInput) : RouterState :=
  (chat cfg s i.req i.b i.latency i.now).state

/-- The state after a sequence of `chat` calls. -/
def chatSeq (cfg : RouterConfig) (s : RouterState) (inputs : List ChatInput) : RouterState :=
  inputs.foldl (chatStep cfg) s

/-- The router state before any provider has registered. -/
def emptyRouterState : RouterState :=
  { providers := [], metrics := fun _ => none }

/-- Registration of one healthy provider during router start-up:
`providers.set` plus `initializeMetrics`. -/
def registerProvider (s : RouterState) (p : ProviderName) : RouterState :=
  { providers := s.providers ++ [p]
    metrics := fun q => if q = p then some initialMetrics else s.metrics q }

/-- The start-up loop: register each configuration-valid provider whose
`getHealth()` succeeds; a provider whose health check fails is skipped. -/
def initLoop (healthy : ProviderName → Bool) : RouterState → List ProviderName → RouterState
  | s, [] => s
  | s, p :: rest => initLoop healthy (if healthy p then registerProvider s p else s) rest

/-- Router start-up (`ProviderRouter.initialize`): fail on invalid
configuration, then register the healthy providers, and fail with
`NO_PROVIDERS_AVAILABLE` when the registry ends up empty. -/
def initRouter (isValid : Bool) (validProviders : List ProviderName)
    (healthy : ProviderName → Bool) (now : Nat) : Except LLMCoreError RouterState :=
  if isValid = false then
    Except.error (createRouterError "INITIALIZATION_FAILED" "Configuration validation failed" now)
  else
    let s := initLoop healthy emptyRouterState validProviders
    if s.providers.isEmpty then
      Except.error (createRouterError "NO_PROVIDERS_AVAILABLE" "No providers could be initialized" now)
    else
      Except.ok s

/-- Extract the state of a successful start-up (total helper for stating
facts about `initRouter` results). -/
def stOf (r : Except LLMCoreError RouterState) : RouterState :=
  match r with
  | Except.ok s => s
  | Except.error _ => emptyRouterState

/-- The metric-store mutators for one fixed provider, as named by the spec's
invariant: recording a success, recording a failure, and
`resetCircuitBreaker`. -/
inductive RouterOp where
  | success (latency : ℚ) (now : Nat)
  | failure (now : Nat)
  | reset
deriving Repr

/-- Whether an operation recomputes `successRate` (the two record
operations do; `resetCircuitBreaker` does not). -/
def RouterOp.recomputesRate : RouterOp → Bool
  | .success _ _ => true
  | .failure _ => true
  | .reset => false

/-- Apply one mutator to provider `p`'s entry. -/
def applyOp (cfg : RouterConfig) (p : ProviderName) (s : RouterState) :
    RouterOp → RouterState
  | .success latency now => recordSuccess cfg s p latency now
  | .failure now => recordFailure cfg s p now
  | .reset => resetCircuitBreaker s p

/-- Apply a sequence of mutators to provider `p`'s entry. -/
def applyOps (cfg : RouterConfig) (p : ProviderName) (s : RouterState)
    (ops : List RouterOp) : RouterState :=
  ops.foldl (applyOp cfg p) s

/-- The spec's per-provider metrics invariant: whenever `requests > 0`,
`successRate = (requests - failures) / requests`. -/
def successRateInvariant (m : ProviderMetrics) : Prop :=
  0 < m.requests →
    m.successRate = ((m.requests : ℚ) - (m.failures : ℚ)) / (m.requests : ℚ)

instance (m : ProviderMetrics) : Decidable (successRateInvariant m) := by
  unfold successRateInvariant
  infer_instance

lemma providers_recordSuccess (cfg : RouterConfig) (s : RouterState) (p : ProviderName)
    (latency : ℚ) (now : Nat) :
    (recordSuccess cfg s p latency now).providers = s.providers := by
  unfold recordSuccess
  cases s.metrics p <;> rfl

lemma providers_recordFailure (cfg : RouterConfig) (s : RouterState) (p : ProviderName)
    (now : Nat) :
    (recordFailure cfg s p now).providers = s.providers := by
  unfold recordFailure
  cases s.metrics p <;> rfl

lemma providers_resetCircuitBreaker (s : RouterState) (p : ProviderName) :
    (resetCircuitBreaker s p).providers = s.providers := by
  unfold resetCircuitBreaker
  cases s.metrics p <;> rfl

lemma metrics_recordSuccess_ne (cfg : RouterConfig) (s : RouterState) {p q : ProviderName}
    (latency : ℚ) (now : Nat) (h : p ≠ q) :
    (recordSuccess cfg s q latency now).metrics p = s.metrics p := by
  unfold recordSuccess
  cases s.metrics q <;> simp [h]

lemma metrics_recordFailure_ne (cfg : RouterConfig) (s : RouterState) {p q : ProviderName}
    (now : Nat) (h : p ≠ q) :
    (recordFailure cfg s q now).metrics p = s.metrics p := by
  unfold recordFailure
  cases s.metrics q <;> simp [h]

lemma circuitOpen_of_metrics_eq {s s' : RouterState} {p : ProviderName}
    (h : s'.metrics p = s.metrics p) : circuitOpen s' p = circuitOpen s p := by
  unfold circuitOpen
  rw [h]

lemma not_available_of_open {s : RouterState} {p : ProviderName}
    (h : circuitOpen s p = true) : isProviderAvailable s p = false := by
  unfold circuitOpen at h
  unfold isProviderAvailable
  cases hm : s.metrics p with
  | none => simp [hm] at h
  | some m =>
    rw [hm] at h
    simp only at h
    simp only [hm, h]
    simp

lemma ne_of_available_of_open {s : RouterState} {p q : ProviderName}
    (hp : circuitOpen s p = true) (hq : isProviderAvailable s q = true) : q ≠ p := by
  intro h
  rw [h, not_available_of_open hp] at hq
  exact Bool.false_ne_true hq

lemma select_available {cfg : RouterConfig} {s : RouterState} {req : ChatRequest}
    {q : ProviderName} (h : selectProvider cfg s req = some q) :
    isProviderAvailable s q = true := by
  have hany : ∀ r : ProviderName, selectAnyAvailable s = some r →
      isProviderAvailable s r = true := by
    intro r hr
    exact List.find?_some hr
  have hdef : ∀ r : ProviderName, selectByDefault cfg s = some r →
      isProviderAvailable s r = true := by
    intro r hr
    unfold selectByDefault at hr
    cases hd : cfg.defaultProvider with
    | none => rw [hd] at hr; exact hany r hr
    | some d =>
      rw [hd] at hr
      by_cases hav : isProviderAvailable s d = true
      · simp only [hav, if_true] at hr
        cases hr
        exact hav
      · simp only [hav, if_false] at hr
        exact hany r hr
  have hmod : ∀ r : ProviderName, selectByModel cfg s req = some r →
      isProviderAvailable s r = true := by
    intro r hr
    unfold selectByModel at hr
    cases hg : getProviderForModel req.model with
    | none => rw [hg] at hr; exact hdef r hr
    | some g =>
      rw [hg] at hr
      by_cases hav : isProviderAvailable s g = true
      · simp only [hav, if_true] at hr
        cases hr
        exact hav
      · simp only [hav, if_false] at hr
        exact hdef r hr
  unfold selectProvider at h
  cases hp : req.provider with
  | none => rw [hp] at h; exact hmod q h
  | some p0 =>
    rw [hp] at h
    by_cases hav : isProviderAvailable s p0 = true
    · simp only [hav, if_true] at h
      cases h
      exact hav
    · simp only [hav, if_false] at h
      exact hmod q h

lemma providers_fallbackGo (cfg : RouterConfig)
    (b : ProviderName → Nat → Except LLMCoreError ChatResponse)
    (exclude : ProviderName) (now : Nat) :
    ∀ (l : List ProviderName) (s : RouterState),
      (fallbackGo cfg b exclude now s l).2.providers = s.providers := by
  intro l
  induction l with
  | nil => intro s; rfl
  | cons p rest ih =>
    intro s
    unfold fallbackGo
    by_cases hc : p = exclude ∨ isProviderAvailable s p = false
    · rw [if_pos hc]
      exact ih s
    · rw [if_neg hc]
      cases b p 1 with
      | ok r => rfl
      | error e =>
        simp only
        rw [ih (recordFailure cfg s p now), providers_recordFailure]

lemma providers_chat (cfg : RouterConfig) (s : RouterState) (req : ChatRequest)
    (b : ProviderName → Nat → Except LLMCoreError ChatResponse)
    (latency : ℚ) (now : Nat) :
    (chat cfg s req b latency now).state.providers = s.providers := by
  unfold chat
  cases hsel : selectProvider cfg s req with
  | none => rfl
  | some p =>
    simp only
    cases hres : (executeWithRetry cfg (b p)).result with
    | ok r => exact providers_recordSuccess cfg s p latency now
    | error e =>
      simp only
      by_cases hfb : (cfg.enableFallback && isRetryableError e) = true
      · rw [if_pos hfb]
        unfold executeWithFallback
        by_cases hen : cfg.fallbackEnabled = false
        · rw [if_pos hen]
          exact providers_recordFailure cfg s p now
        · rw [if_neg hen]
          rw [providers_fallbackGo, providers_recordFailure]
      · rw [if_neg hfb]
        exact providers_recordFailure cfg s p now

lemma providers_chatSeq (cfg : RouterConfig) :
    ∀ (inputs : List ChatInput) (s : RouterState),
      (chatSeq cfg s inputs).providers = s.providers := by
  intro inputs
  induction inputs with
  | nil => intro s; rfl
  | cons i rest ih =>
    intro s
    show (chatSeq cfg (chatStep cfg s i) rest).providers = s.providers
    rw [ih, chatStep, providers_chat]

lemma metrics_fallbackGo_open (cfg : RouterConfig)
    (b : ProviderName → Nat → Except LLMCoreError ChatResponse)
    (exclude : ProviderName) (now : Nat) (p : ProviderName) :
    ∀ (l : List ProviderName) (s : RouterState), circuitOpen s p = true →
      (fallbackGo cfg b exclude now s l).2.metrics p = s.metrics p := by
  intro l
  induction l with
  | nil => intro s _; rfl
  | cons r rest ih =>
    intro s hopen
    unfold fallbackGo
    by_cases hc : r = exclude ∨ isProviderAvailable s r = false
    · rw [if_pos hc]
      exact ih s hopen
    · rw [if_neg hc]
      push_neg at hc
      have hav : isProviderAvailable s r = true := by
        cases hb : isProviderAvailable s r with
        | false => exact absurd hb hc.2
        | true => rfl
      have hne : p ≠ r := (ne_of_available_of_open hopen hav).symm
      cases b r 1 with
      | ok resp => rfl
      | error e =>
        simp only
        have hkeep := metrics_recordFailure_ne cfg s (q := r) now hne
        rw [ih (recordFailure cfg s r now)
              (by rw [circuitOpen_of_metrics_eq hkeep]; exact hopen), hkeep]

lemma metrics_chat_open (cfg : RouterConfig) (s : RouterState) (req : ChatRequest)
    (b : ProviderName → Nat → Except LLMCoreError ChatResponse)
    (latency : ℚ) (now : Nat) (p : ProviderName) (hopen : circuitOpen s p = true) :
    (chat cfg s req b latency now).state.metrics p = s.metrics p := by
  unfold chat
  cases hsel : selectProvider cfg s req with
  | none => rfl
  | some q =>
    have hne : p ≠ q := (ne_of_available_of_open hopen (select_available hsel)).symm
    simp only
    cases hres : (executeWithRetry cfg (b q)).result with
    | ok r => exact metrics_recordSuccess_ne cfg s latency now hne
    | error e =>
      simp only
      have hkeep := metrics_recordFailure_ne cfg s (q := q) now hne
      have hopen1 : circuitOpen (recordFailure cfg s q now) p = true := by
        rw [circuitOpen_of_metrics_eq hkeep]; exact hopen
      by_cases hfb : (cfg.enableFallback && isRetryableError e) = true
      · rw [if_pos hfb]
        unfold executeWithFallback
        by_cases hen : cfg.fallbackEnabled = false
        · rw [if_pos hen]
          exact hkeep
        · rw [if_neg hen]
          rw [metrics_fallbackGo_open cfg b q now p _ _ hopen1, hkeep]
      · rw [if_neg hfb]
        exact hkeep

lemma metrics_chatSeq_open (cfg : RouterConfig) (p : ProviderName) :
    ∀ (inputs : List ChatInput) (s : RouterState), circuitOpen s p = true →
      (chatSeq cfg s inputs).metrics p = s.metrics p := by
  intro inputs
  induction inputs with
  | nil => intro s _; rfl
  | cons i rest ih =>
    intro s hopen
    show (chatSeq cfg (chatStep cfg s i) rest).metrics p = s.metrics p
    have hkeep : (chatStep cfg s i).metrics p = s.metrics p :=
      metrics_chat_open cfg s i.req i.b i.latency i.now p hopen
    rw [ih (chatStep cfg s i) (by rw [circuitOpen_of_metrics_eq hkeep]; exact hopen), hkeep]

lemma circuitOpen_chatSeq (cfg : RouterConfig) (p : ProviderName)
    (inputs : List ChatInput) (s : RouterState) (hopen : circuitOpen s p = true) :
    circuitOpen (chatSeq cfg s inputs) p = true := by
  rw [circuitOpen_of_metrics_eq (metrics_chatSeq_open cfg p inputs s hopen)]
  exact hopen


instance instDecEqExceptLLM {ε α : Type} [DecidableEq ε] [DecidableEq α] :
    DecidableEq (Except ε α) := fun a b =>
  match a, b with
  | Except.ok x, Except.ok y =>
    decidable_of_iff (x = y) ⟨fun h => h ▸ rfl, fun h => Except.ok.inj h⟩
  | Except.ok _, Except.error _ => isFalse fun h => Except.noConfusion h
  | Except.error _, Except.ok _ => isFalse fun h => Except.noConfusion h
  | Except.error x, Except.error y =>
    decidable_of_iff (x = y) ⟨fun h => h ▸ rfl, fun h => Except.error.inj h⟩

/-- A representative configuration with the router's documented defaults:
fallback on, `retryDelay = 1000`, breaker on with threshold 5 and reset
timeout 60000, `maxAttempts = 3`, multiplier 2, `maxDelay = 30000`. -/
def defaultishConfig : RouterConfig :=
  { enableFallback := true
    retryDelay := 1000
    circuitBreakerEnabled := true
    failureThreshold := 5
    resetTimeout := 60000
    maxAttempts := 3
    backoffMultiplier := 2
    maxDelay := 30000
    fallbackEnabled := true
    fallbackProviders := []
    defaultProvider := some ProviderName.openai }

/-- A state with only `openai` registered, at its freshly initialized
metrics. -/
def openaiOnlyState : RouterState :=
  { providers := [ProviderName.openai]
    metrics := fun q => if q = ProviderName.openai then some initialMetrics else none }

/-- The metrics left on `openai` by one recorded failure (at time 0)
followed by `resetCircuitBreaker`. -/
def staleRateMetrics : ProviderMetrics :=
  { requests := 1
    failures := 0
    successRate := 0
    averageLatency := 0
    lastFailure := none
    isCircuitOpen := false }

/-- C1, counterexample: recording one failure (`successRate` becomes 0) and
then calling `resetCircuitBreaker` zeroes `failures` without recomputing
`successRate`, so with `requests = 1 > 0` the stored rate 0 differs from
`(requests - failures) / requests = 1`. -/
theorem claim1_counterexample :
    (applyOps defaultishConfig ProviderName.openai openaiOnlyState
        [RouterOp.failure 0, RouterOp.reset]).metrics ProviderName.openai =
      some staleRateMetrics ∧
    0 < staleRateMetrics.requests ∧
    ¬ successRateInvariant staleRateMetrics := by
  refine ⟨?_, by decide, ?_⟩
  · norm_num [applyOps, applyOp, recordFailure, resetCircuitBreaker, openaiOnlyState,
      initialMetrics, defaultishConfig, shouldOpenCircuitBreaker, effFailureThreshold,
      staleRateMetrics]
  · intro h
    have := h (by norm_num [staleRateMetrics])
    norm_num [staleRateMetrics] at this

/-- C1 (amended): after any sequence of the per-provider mutators whose last
operation is `recordSuccess` or `recordFailure` (the two operations that
recompute the rate), the provider's metrics satisfy
`successRate = (requests - failures) / requests` whenever `requests > 0`;
a trailing `resetCircuitBreaker` can instead leave the rate stale. -/
theorem claim1_amended_theorem (cfg : RouterConfig) (p : ProviderName)
    (s : RouterState) (ops : List RouterOp) (op : RouterOp)
    (hop : op.recomputesRate = true) (m : ProviderMetrics)
    (hm : (applyOps cfg p s (ops ++ [op])).metrics p = some m) :
    successRateInvariant m := by
  intro _
  rw [applyOps, List.foldl_append, List.foldl_cons, List.foldl_nil] at hm
  generalize List.foldl (applyOp cfg p) s ops = s' at hm
  cases op with
  | reset => exact absurd hop (by simp [RouterOp.recomputesRate])
  | success latency now =>
    simp only [applyOp] at hm
    unfold recordSuccess at hm
    cases h2 : s'.metrics p with
    | none => simp [h2] at hm
    | some m0 =>
      rw [h2] at hm
      simp only [eq_self_iff_true, if_true, Option.some.injEq] at hm
      subst hm
      rfl
  | failure now =>
    simp only [applyOp] at hm
    unfold recordFailure at hm
    cases h2 : s'.metrics p with
    | none => simp [h2] at hm
    | some m0 =>
      rw [h2] at hm
      simp only [eq_self_iff_true, if_true, Option.some.injEq] at hm
      subst hm
      rfl

/-- Witness for C1 (amended) at a concrete sequence ending in a recorded
failure. -/
theorem claim1_witness :
    successRateInvariant
      { requests := 1, failures := 1, successRate := 0, averageLatency := 0,
        lastFailure := some 7, isCircuitOpen := false } :=
  claim1_amended_theorem defaultishConfig ProviderName.openai openaiOnlyState
    [] (RouterOp.failure 7) rfl _
    (by norm_num [applyOps, applyOp, recordFailure, openaiOnlyState, initialMetrics,
      defaultishConfig, shouldOpenCircuitBreaker, effFailureThreshold])

/-- A state in which `openai` is registered but its breaker is open. -/
def openaiTrippedState : RouterState :=
  { providers := [ProviderName.openai]
    metrics := fun q =>
      if q = ProviderName.openai then
        some { requests := 5, failures := 5, successRate := 0, averageLatency := 0,
               lastFailure := some 0, isCircuitOpen := true }
      else none }

/-- C3, counterexample: `getAvailableProviders` returns every registered
name, so a registered provider with an open breaker (here `openai`, which
`isProviderAvailable` rejects) is still in the returned list. -/
theorem claim3_counterexample :
    ProviderName.openai ∈ getAvailableProviders openaiTrippedState ∧
    circuitOpen openaiTrippedState ProviderName.openai = true ∧
    isProviderAvailable openaiTrippedState ProviderName.openai = false := by
  refine ⟨by decide, by decide, by decide⟩

/-- C3 (amended): `getAvailableProviders()` returns exactly the registered
provider names, in registration order, regardless of circuit state; breaker
filtering happens only in `isProviderAvailable`. -/
theorem claim3_amended_theorem :
    ∀ (s : RouterState) (p : ProviderName),
      (p ∈ getAvailableProviders s ↔ p ∈ s.providers) ∧
      getAvailableProviders s = s.providers :=
  fun _ _ => ⟨Iff.rfl, rfl⟩

/-- C8: a request with an explicit `provider` field naming a registered,
closed-breaker provider is routed to exactly that provider, for every
configuration (hence every default provider), model and registry. -/
theorem claim8_theorem (cfg : RouterConfig) (s : RouterState) (req : ChatRequest)
    (p : ProviderName) (hp : req.provider = some p)
    (hav : isProviderAvailable s p = true) :
    selectProvider cfg s req = some p := by
  unfold selectProvider
  rw [hp]
  simp only [hav, if_true]

/-- A registry with `openai` then `claude`, both with fresh metrics. -/
def twoProviderState : RouterState :=
  { providers := [ProviderName.openai, ProviderName.claude]
    metrics := fun _ => some initialMetrics }

/-- Witness for C8: the explicit `claude` choice wins although the model
maps to `openai`, the default is `openai`, and `openai` registered first. -/
theorem claim8_witness :
    selectProvider defaultishConfig twoProviderState
      { provider := some ProviderName.claude, model := "gpt-4" } =
      some ProviderName.claude :=
  claim8_theorem defaultishConfig twoProviderState _ ProviderName.claude rfl (by decide)

/-- C10: every router-internal error built by `createRouterError` carries
`retryable = false` yet `type = "network"`, and the router's own
`isRetryableError` classifier therefore reports it as retryable. -/
theorem claim10_theorem :
    ∀ (code message : String) (now : Nat),
      (createRouterError code message now).retryable = false ∧
      (createRouterError code message now).type = "network" ∧
      isRetryableError (createRouterError code message now) = true :=
  fun _ _ _ => ⟨rfl, rfl, rfl⟩

/-- The retryable error openai keeps returning in Scenario A. -/
def serverErrorA : LLMCoreError :=
  { name := "LLMCoreError", type := "server_error", code := "SERVER_ERROR",
    message := "Provider error", provider := "openai", retryable := true, timestamp := 0 }

/-- Claude's successful response in Scenario A. -/
def claudeResponseA : ChatResponse := { id := "claude-response" }

/-- Scenario A provider behaviour: `openai.chat` fails with the retryable
server error on every attempt, `claude.chat` succeeds. -/
def behaviorA : ProviderName → Nat → Except LLMCoreError ChatResponse :=
  fun p _ =>
    match p with
    | ProviderName.openai => Except.error serverErrorA
    | ProviderName.claude => Except.ok claudeResponseA
    | _ => Except.error serverErrorA

/-- Scenario A configuration: fallback enabled with candidate list
`[claude]`. -/
def scenarioAConfig : RouterConfig :=
  { defaultishConfig with fallbackProviders := [ProviderName.claude] }

/-- Scenario A request, addressed to `openai`. -/
def requestA : ChatRequest := { provider := some ProviderName.openai, model := "gpt-4" }

/-- C4, counterexample: in Scenario A the router does return claude's
response, but the fallback path returns a candidate's success without
recording it, so claude's metrics still show `requests = 0`, not the
claimed `requests = 1`. -/
theorem claim4_counterexample :
    (chat scenarioAConfig twoProviderState requestA behaviorA 5 100).result =
      Except.ok claudeResponseA ∧
    ((chat scenarioAConfig twoProviderState requestA behaviorA 5 100).state.metrics
        ProviderName.claude).map ProviderMetrics.requests = some 0 ∧
    ¬ (((chat scenarioAConfig twoProviderState requestA behaviorA 5 100).state.metrics
        ProviderName.claude).map ProviderMetrics.requests = some 1) := by
  refine ⟨by decide, by decide, by decide⟩

/-- C4 (amended): in Scenario A `router.chat` returns claude's response via
the fallback chain, openai's metrics show `requests = 1, failures = 1`, and
claude's metrics are untouched (`requests = 0, failures = 0`), because
`executeWithFallback` records candidate failures but never a candidate
success. -/
theorem claim4_amended_theorem :
    (chat scenarioAConfig twoProviderState requestA behaviorA 5 100).result =
      Except.ok claudeResponseA ∧
    (chat scenarioAConfig twoProviderState requestA behaviorA 5 100).usedFallback = true ∧
    ((chat scenarioAConfig twoProviderState requestA behaviorA 5 100).state.metrics
        ProviderName.openai).map ProviderMetrics.requests = some 1 ∧
    ((chat scenarioAConfig twoProviderState requestA behaviorA 5 100).state.metrics
        ProviderName.openai).map ProviderMetrics.failures = some 1 ∧
    ((chat scenarioAConfig twoProviderState requestA behaviorA 5 100).state.metrics
        ProviderName.claude).map ProviderMetrics.requests = some 0 ∧
    ((chat scenarioAConfig twoProviderState requestA behaviorA 5 100).state.metrics
        ProviderName.claude).map ProviderMetrics.failures = some 0 := by
  refine ⟨by decide, by decide, by decide, by decide, by decide, by decide⟩

/-- Scenario A's configuration but with the configuration manager's
fallback flag off while `RouterOptions.enableFallback` stays true. -/
def configLevelFallbackOff : RouterConfig :=
  { scenarioAConfig with fallbackEnabled := false }

/-- C5, counterexample: with `RouterOptions.enableFallback = true` but the
configuration manager's fallback config disabled, a retryable primary
failure is answered with the router-internal `FALLBACK_DISABLED` error,
not with the primary provider's own `server_error`. -/
theorem claim5_counterexample :
    (chat configLevelFallbackOff twoProviderState requestA behaviorA 5 100).result =
      Except.error (createRouterError "FALLBACK_DISABLED" "Fallback is disabled" 100) ∧
    ¬ ((chat configLevelFallbackOff twoProviderState requestA behaviorA 5 100).result =
        Except.error serverErrorA) := by
  refine ⟨by decide, by decide⟩

/-- C5 (amended): when fallback is disabled through
`RouterOptions.enableFallback`, the router surfaces the primary provider's
own classified error; but when `enableFallback` is true and only the
configuration manager's fallback config is disabled, a retryable primary
error is replaced by the router-internal `FALLBACK_DISABLED` error. -/
theorem claim5_amended_theorem (cfg : RouterConfig) (s : RouterState)
    (req : ChatRequest) (b : ProviderName → Nat → Except LLMCoreError ChatResponse)
    (latency : ℚ) (now : Nat) (p : ProviderName) (e : LLMCoreError)
    (hsel : selectProvider cfg s req = some p)
    (hret : (executeWithRetry cfg (b p)).result = Except.error e) :
    (cfg.enableFallback = false →
      (chat cfg s req b latency now).result = Except.error e) ∧
    (cfg.enableFallback = true → isRetryableError e = true → cfg.fallbackEnabled = false →
      (chat cfg s req b latency now).result =
        Except.error (createRouterError "FALLBACK_DISABLED" "Fallback is disabled" now)) := by
  constructor
  · intro hef
    simp only [chat, hsel, hret, hef, Bool.false_and, Bool.false_eq_true, if_false]
    rfl
  · intro hef hre hfb
    simp only [chat, hsel, hret, hef, hre, Bool.and_self, if_true]
    unfold executeWithFallback
    simp [hfb]

/-- Witness for C5 (amended), exercising the `FALLBACK_DISABLED` branch on
the concrete Scenario A state. -/
theorem claim5_witness :
    (chat configLevelFallbackOff twoProviderState requestA behaviorA 5 100).result =
      Except.error (createRouterError "FALLBACK_DISABLED" "Fallback is disabled" 100) :=
  (claim5_amended_theorem configLevelFallbackOff twoProviderState requestA behaviorA
    5 100 ProviderName.openai serverErrorA (by decide) (by decide)).2 rfl (by decide) rfl

lemma retryGo_nonretryable (cfg : RouterConfig)
    (b : Nat → Except LLMCoreError ChatResponse) (e : LLMCoreError)
    (hb : b 1 = Except.error e) (hnr : isRetryableError e = false)
    (fuel : Nat) (hf : 1 ≤ fuel) :
    retryGo cfg b 1 fuel = { result := Except.error e, calls := 1, delays := [] } := by
  cases fuel with
  | zero => exact absurd hf (by omega)
  | succ f =>
    unfold retryGo
    rw [hb]
    simp [hnr]

/-- C7: a selected provider failing with a non-retryable classified error
(e.g. `authentication` with `retryable = false`) is attempted exactly once
regardless of `maxAttempts`, the fallback chain is not invoked, and the
provider's own error is returned to the caller; only the failure record for
the selected provider is written. -/
theorem claim7_theorem (cfg : RouterConfig) (s : RouterState) (req : ChatRequest)
    (b : ProviderName → Nat → Except LLMCoreError ChatResponse)
    (latency : ℚ) (now : Nat) (p : ProviderName) (e : LLMCoreError)
    (hsel : selectProvider cfg s req = some p)
    (hb : b p 1 = Except.error e)
    (hnr : isRetryableError e = false)
    (hN : 1 ≤ cfg.maxAttempts) :
    (chat cfg s req b latency now).result = Except.error e ∧
    (chat cfg s req b latency now).attempts = 1 ∧
    (chat cfg s req b latency now).usedFallback = false ∧
    (chat cfg s req b latency now).state = recordFailure cfg s p now := by
  have ho : executeWithRetry cfg (b p) =
      { result := Except.error e, calls := 1, delays := [] } := by
    unfold executeWithRetry
    exact retryGo_nonretryable cfg (b p) e hb hnr cfg.maxAttempts hN
  simp only [chat, hsel, ho]
  simp [hnr, mapProviderError]

/-- The non-retryable authentication error used by the router tests. -/
def authError : LLMCoreError :=
  { name := "LLMCoreError", type := "authentication", code := "INVALID_API_KEY",
    message := "Authentication error", provider := "openai", retryable := false,
    timestamp := 0 }

/-- Behaviour in which `openai.chat` fails with the authentication error
while `claude.chat` would succeed. -/
def behaviorAuth : ProviderName → Nat → Except LLMCoreError ChatResponse :=
  fun p _ =>
    match p with
    | ProviderName.openai => Except.error authError
    | ProviderName.claude => Except.ok claudeResponseA
    | _ => Except.error authError

/-- Witness for C7: with `maxAttempts = 3` and an available fallback
candidate, the authentication failure is attempted once and surfaced. -/
theorem claim7_witness :
    (chat scenarioAConfig twoProviderState requestA behaviorAuth 5 100).result =
      Except.error authError ∧
    (chat scenarioAConfig twoProviderState requestA behaviorAuth 5 100).attempts = 1 ∧
    (chat scenarioAConfig twoProviderState requestA behaviorAuth 5 100).usedFallback = false :=
  have h := claim7_theorem scenarioAConfig twoProviderState requestA behaviorAuth
    5 100 ProviderName.openai authError (by decide) rfl rfl (by decide)
  ⟨h.1, h.2.1, h.2.2.1⟩

lemma retryGo_allFail (cfg : RouterConfig)
    (b : Nat → Except LLMCoreError ChatResponse) (err : Nat → LLMCoreError)
    (hb : ∀ k, b k = Except.error (err k))
    (hr : ∀ k, isRetryableError (err k) = true) :
    ∀ (fuel attempt : Nat), 1 ≤ fuel → 1 ≤ attempt →
      retryGo cfg b attempt fuel =
        { result := Except.error (err (attempt + fuel - 1)),
          calls := fuel,
          delays := (List.range (fuel - 1)).map
            (fun k => min (cfg.retryDelay * cfg.backoffMultiplier ^ (attempt - 1 + k)) cfg.maxDelay) } := by
  intro fuel
  induction fuel with
  | zero => intro attempt hf _; exact absurd hf (by omega)
  | succ f ih =>
    intro attempt _ ha
    unfold retryGo
    rw [hb attempt]
    simp only [hr attempt, Bool.not_true, Bool.false_eq_true, if_false]
    by_cases h0 : f = 0
    · subst h0
      simp only [if_pos rfl]
      rfl
    · rw [if_neg h0]
      obtain ⟨g, rfl⟩ : ∃ g, f = g + 1 := ⟨f - 1, by omega⟩
      rw [ih (attempt + 1) (by omega) (by omega)]
      dsimp only
      rw [show attempt + 1 + (g + 1) - 1 = attempt + (g + 1 + 1) - 1 from by omega]
      rw [show g + 1 + 1 - 1 = g + 1 from by omega]
      rw [show g + 1 - 1 = g from by omega]
      congr 1
      rw [List.range_succ_eq_map, List.map_cons, List.map_map]
      congr 1
      apply List.map_congr_left
      intro k _
      simp only [Function.comp]
      rw [show attempt + 1 - 1 + k = attempt - 1 + (k + 1) from by omega]

lemma chain_min_pow (c m M : ℚ) (hc : 0 ≤ c) (hm : 1 ≤ m) (n : Nat) :
    List.Chain' (fun a b => a ≤ b)
      ((List.range n).map (fun k => min (c * m ^ k) M)) := by
  rw [List.chain'_map]
  cases n with
  | zero => simp
  | succ n0 =>
    rw [List.chain'_range_succ]
    intro k _
    apply min_le_min _ le_rfl
    apply mul_le_mul_of_nonneg_left _ hc
    calc m ^ k ≤ m ^ k * m :=
          le_mul_of_one_le_right (pow_nonneg (le_trans zero_le_one hm) k) hm
      _ = m ^ (k + 1) := (pow_succ m k).symm

/-- C6: with `maxAttempts = N ≥ 1` and a provider failing with a retryable
error on every attempt, the retry executor makes exactly N provider calls,
the delays slept before the retries are exactly
`min(retryDelay * backoffMultiplier^(attempt-1), maxDelay)` for attempts
1..N-1, that sequence is non-decreasing (multiplier ≥ 1, base ≥ 0, as
`getRetryConfig` always supplies) and capped at `maxDelay`, and the final
attempt's error is returned. -/
theorem claim6_theorem (cfg : RouterConfig)
    (b : Nat → Except LLMCoreError ChatResponse) (err : Nat → LLMCoreError)
    (hN : 1 ≤ cfg.maxAttempts)
    (hb : ∀ k, b k = Except.error (err k))
    (hr : ∀ k, isRetryableError (err k) = true)
    (hbase : 0 ≤ cfg.retryDelay)
    (hmult : 1 ≤ cfg.backoffMultiplier) :
    (executeWithRetry cfg b).calls = cfg.maxAttempts ∧
    (executeWithRetry cfg b).result = Except.error (err cfg.maxAttempts) ∧
    (executeWithRetry cfg b).delays =
      (List.range (cfg.maxAttempts - 1)).map
        (fun k => min (cfg.retryDelay * cfg.backoffMultiplier ^ k) cfg.maxDelay) ∧
    List.Chain' (fun a b => a ≤ b) (executeWithRetry cfg b).delays ∧
    ∀ d ∈ (executeWithRetry cfg b).delays, d ≤ cfg.maxDelay := by
  have h := retryGo_allFail cfg b err hb hr cfg.maxAttempts 1 hN (by omega)
  have hidx : 1 + cfg.maxAttempts - 1 = cfg.maxAttempts := by omega
  rw [hidx] at h
  have hdelays : (executeWithRetry cfg b).delays =
      (List.range (cfg.maxAttempts - 1)).map
        (fun k => min (cfg.retryDelay * cfg.backoffMultiplier ^ k) cfg.maxDelay) := by
    rw [executeWithRetry, h]
    simp only [Nat.sub_self, Nat.zero_add]
  refine ⟨by rw [executeWithRetry, h], by rw [executeWithRetry, h], hdelays, ?_, ?_⟩
  · rw [hdelays]
    exact chain_min_pow cfg.retryDelay cfg.backoffMultiplier cfg.maxDelay hbase hmult _
  · intro d hd
    rw [hdelays] at hd
    obtain ⟨k, _, rfl⟩ := List.mem_map.mp hd
    exact min_le_right _ _

/-- Witness for C6 on the default configuration (`maxAttempts = 3`). -/
theorem claim6_witness :
    (executeWithRetry defaultishConfig (fun _ => Except.error serverErrorA)).calls = 3 ∧
    (executeWithRetry defaultishConfig (fun _ => Except.error serverErrorA)).result =
      Except.error serverErrorA ∧
    List.Chain' (fun a b => a ≤ b)
      (executeWithRetry defaultishConfig (fun _ => Except.error serverErrorA)).delays :=
  have h := claim6_theorem defaultishConfig (fun _ => Except.error serverErrorA)
    (fun _ => serverErrorA) (by decide) (fun _ => rfl) (fun _ => rfl)
    (by norm_num [defaultishConfig]) (by norm_num [defaultishConfig])
  ⟨h.1, h.2.1, h.2.2.2.1⟩

lemma initLoop_spec (healthy : ProviderName → Bool) :
    ∀ (l : List ProviderName) (s : RouterState),
      (initLoop healthy s l).providers =
        s.providers ++ l.filter (fun q => healthy q) ∧
      ∀ p, (initLoop healthy s l).metrics p =
        if p ∈ l.filter (fun q => healthy q) then some initialMetrics
        else s.metrics p := by
  intro l
  induction l with
  | nil =>
    intro s
    refine ⟨by simp [initLoop], fun p => by simp [initLoop]⟩
  | cons q rest ih =>
    intro s
    by_cases hq : healthy q = true
    · have hstep : initLoop healthy s (q :: rest) =
          initLoop healthy (registerProvider s q) rest := by
        simp only [initLoop]
        rw [if_pos hq]
      have h := ih (registerProvider s q)
      constructor
      · rw [hstep, h.1]
        simp [registerProvider, List.filter_cons, hq]
      · intro p
        rw [hstep, h.2 p]
        by_cases hp1 : p ∈ rest.filter (fun r => healthy r)
        · simp [List.filter_cons, hq, hp1]
        · by_cases hp2 : p = q
          · subst hp2
            simp [List.filter_cons, hq, hp1, registerProvider]
          · simp [List.filter_cons, hq, hp1, hp2, registerProvider]
    · have hq' : healthy q = false := by
        cases hb : healthy q with
        | true => exact absurd hb hq
        | false => rfl
      have hstep : initLoop healthy s (q :: rest) = initLoop healthy s rest := by
        simp only [initLoop]
        rw [if_neg (by simp [hq'])]
      have h := ih s
      constructor
      · rw [hstep, h.1]
        simp [List.filter_cons, hq']
      · intro p
        rw [hstep, h.2 p]
        simp [List.filter_cons, hq']

/-- C9: during start-up a configured provider whose health check fails is
skipped — absent from the registry, with no metrics entry (hence no failure
recorded) — while healthy providers still register with fresh metrics; and
when every provider fails its health check the start-up fails with the
`NO_PROVIDERS_AVAILABLE` router error. -/
theorem claim9_theorem (validProviders : List ProviderName)
    (healthy : ProviderName → Bool) (now : Nat) :
    (∀ p, healthy p = false →
      ∀ st, initRouter true validProviders healthy now = Except.ok st →
        p ∉ st.providers ∧ st.metrics p = none) ∧
    ((∃ q ∈ validProviders, healthy q = true) →
      ∃ st, initRouter true validProviders healthy now = Except.ok st ∧
        ∀ q ∈ validProviders, healthy q = true →
          q ∈ st.providers ∧ st.metrics q = some initialMetrics) ∧
    ((∀ q ∈ validProviders, healthy q = false) →
      initRouter true validProviders healthy now =
        Except.error (createRouterError "NO_PROVIDERS_AVAILABLE"
          "No providers could be initialized" now)) := by
  have hspec := initLoop_spec healthy validProviders emptyRouterState
  have hprov : (initLoop healthy emptyRouterState validProviders).providers =
      validProviders.filter (fun q => healthy q) := by
    rw [hspec.1]
    rfl
  refine ⟨?_, ?_, ?_⟩
  · intro p hp st hst
    unfold initRouter at hst
    simp only [if_neg (by simp : ¬(true = false))] at hst
    by_cases he : (initLoop healthy emptyRouterState validProviders).providers.isEmpty = true
    · rw [if_pos he] at hst
      exact absurd hst (by simp)
    · rw [if_neg he] at hst
      have hst' : st = initLoop healthy emptyRouterState validProviders := by
        cases hst
        rfl
      subst hst'
      constructor
      · rw [hprov]
        intro hmem
        have := (List.mem_filter.mp hmem).2
        rw [hp] at this
        exact Bool.false_ne_true this
      · rw [hspec.2 p]
        rw [if_neg ?_]
        · rfl
        · intro hmem
          have := (List.mem_filter.mp hmem).2
          rw [hp] at this
          exact Bool.false_ne_true this
  · rintro ⟨q0, hq0mem, hq0⟩
    have hq0f : q0 ∈ validProviders.filter (fun q => healthy q) :=
      List.mem_filter.mpr ⟨hq0mem, by rw [hq0]⟩
    have he : (initLoop healthy emptyRouterState validProviders).providers.isEmpty = false := by
      rw [hprov]
      cases hflt : validProviders.filter (fun q => healthy q) with
      | nil => rw [hflt] at hq0f; exact absurd hq0f (List.not_mem_nil q0)
      | cons a l => rfl
    refine ⟨initLoop healthy emptyRouterState validProviders, ?_, ?_⟩
    · unfold initRouter
      simp only [if_neg (by simp : ¬(true = false))]
      rw [if_neg (by rw [he]; exact Bool.false_ne_true)]
    · intro q hqmem hqh
      have hqf : q ∈ validProviders.filter (fun r => healthy r) :=
        List.mem_filter.mpr ⟨hqmem, by rw [hqh]⟩
      constructor
      · rw [hprov]
        exact hqf
      · rw [hspec.2 q, if_pos hqf]
  · intro hall
    have hflt : validProviders.filter (fun q => healthy q) = [] := by
      rw [List.filter_eq_nil_iff]
      intro a ha
      rw [hall a ha]
      exact Bool.false_ne_true
    unfold initRouter
    simp only [if_neg (by simp : ¬(true = false))]
    rw [if_pos (by rw [hprov, hflt]; rfl)]

/-- A health check that only `claude` passes. -/
def healthyW : ProviderName → Bool := fun q => decide (q = ProviderName.claude)

/-- Witness for C9: with `openai` unhealthy and `claude` healthy, start-up
succeeds and `openai` is absent with no metrics entry. -/
theorem claim9_witness :
    ProviderName.openai ∉
      (stOf (initRouter true [ProviderName.openai, ProviderName.claude]
        healthyW 5)).providers ∧
    (stOf (initRouter true [ProviderName.openai, ProviderName.claude]
        healthyW 5)).metrics ProviderName.openai = none :=
  (claim9_theorem [ProviderName.openai, ProviderName.claude] healthyW 5).1
    ProviderName.openai (by decide) _ rfl

/-- The default configuration with `failureThreshold = 1`, so one failure
trips the breaker. -/
def trippingConfig : RouterConfig :=
  { defaultishConfig with failureThreshold := 1 }

/-- C2, counterexample: after `openai`'s failures reach the threshold (one
failure at time 0), the breaker is open, and although by time 1000000 far
more than `resetTimeoutMs = 60000` has elapsed since the last failure — the
code's own `shouldResetCircuitBreaker` criterion holds — `openai` is still
unavailable and unselectable: nothing consults the timeout during selection,
so elapsed time alone never makes the provider selectable again. -/
theorem claim2_counterexample :
    circuitOpen (recordFailure trippingConfig openaiOnlyState ProviderName.openai 0)
      ProviderName.openai = true ∧
    ((recordFailure trippingConfig openaiOnlyState ProviderName.openai 0).metrics
        ProviderName.openai).map
      (fun m => shouldResetCircuitBreaker trippingConfig m 1000000) = some true ∧
    isProviderAvailable (recordFailure trippingConfig openaiOnlyState ProviderName.openai 0)
      ProviderName.openai = false ∧
    selectProvider trippingConfig
      (recordFailure trippingConfig openaiOnlyState ProviderName.openai 0)
      { provider := some ProviderName.openai, model := "gpt-4" } = none := by
  refine ⟨by decide, by decide, by decide, by decide⟩

/-- C2 (amended): once a provider's recorded failures reach
`failureThreshold` with the breaker enabled, the provider is unavailable and
no subsequent `chat` call selects it — through any sequence of chat calls
with arbitrary requests, provider behaviours, latencies and clock readings —
until `resetCircuitBreaker` is called for it, after which it is selectable
again.  Mere elapse of `resetTimeoutMs` does not restore selectability: the
reset-timeout is only consulted when a success is recorded for the provider,
which cannot happen while it is unselectable. -/
theorem claim2_amended_theorem (cfg : RouterConfig) (s0 : RouterState)
    (p : ProviderName) (m : ProviderMetrics) (now : Nat)
    (henabled : cfg.circuitBreakerEnabled = true)
    (hm : s0.metrics p = some m)
    (hreg : p ∈ s0.providers)
    (hth : effFailureThreshold cfg ≤ m.failures + 1) :
    ∀ (inputs : List ChatInput) (req : ChatRequest),
      isProviderAvailable (chatSeq cfg (recordFailure cfg s0 p now) inputs) p = false ∧
      selectProvider cfg (chatSeq cfg (recordFailure cfg s0 p now) inputs) req ≠ some p ∧
      isProviderAvailable
        (resetCircuitBreaker (chatSeq cfg (recordFailure cfg s0 p now) inputs) p) p = true := by
  intro inputs req
  have hso : shouldOpenCircuitBreaker cfg (m.failures + 1) = true := by
    unfold shouldOpenCircuitBreaker
    exact decide_eq_true hth
  have hopen1 : circuitOpen (recordFailure cfg s0 p now) p = true := by
    unfold recordFailure
    rw [hm]
    unfold circuitOpen
    simp [henabled, hso]
  have hopen : circuitOpen (chatSeq cfg (recordFailure cfg s0 p now) inputs) p = true :=
    circuitOpen_chatSeq cfg p inputs _ hopen1
  have hprov : (chatSeq cfg (recordFailure cfg s0 p now) inputs).providers = s0.providers := by
    rw [providers_chatSeq, providers_recordFailure]
  have hmem : p ∈ (chatSeq cfg (recordFailure cfg s0 p now) inputs).providers := by
    rw [hprov]
    exact hreg
  refine ⟨not_available_of_open hopen, ?_, ?_⟩
  · intro hsel
    have hav := select_available hsel
    rw [not_available_of_open hopen] at hav
    exact Bool.false_ne_true hav
  · unfold circuitOpen at hopen
    cases hms : (chatSeq cfg (recordFailure cfg s0 p now) inputs).metrics p with
    | none => rw [hms] at hopen; simp at hopen
    | some m' =>
      unfold resetCircuitBreaker
      rw [hms]
      unfold isProviderAvailable
      simp [hmem]

/-- A chat call performed well after the reset timeout has elapsed. -/
def chatInputW : ChatInput :=
  { req := { provider := some ProviderName.openai, model := "gpt-4" }
    b := behaviorA
    latency := 5
    now := 70000 }

/-- Witness for C2 (amended): concrete tripped `openai`, one later chat
call, with the amended guarantees evaluated. -/
theorem claim2_witness :
    isProviderAvailable
      (chatSeq trippingConfig
        (recordFailure trippingConfig openaiOnlyState ProviderName.openai 0) [chatInputW])
      ProviderName.openai = false ∧
    selectProvider trippingConfig
      (chatSeq trippingConfig
        (recordFailure trippingConfig openaiOnlyState ProviderName.openai 0) [chatInputW])
      { provider := some ProviderName.openai, model := "gpt-4" } ≠
        some ProviderName.openai ∧
    isProviderAvailable
      (resetCircuitBreaker
        (chatSeq trippingConfig
          (recordFailure trippingConfig openaiOnlyState ProviderName.openai 0) [chatInputW])
        ProviderName.openai)
      ProviderName.openai = true :=
  claim2_amended_theorem trippingConfig openaiOnlyState ProviderName.openai
    initialMetrics 0 rfl rfl (by decide) (by decide) [chatInputW]
    { provider := some ProviderName.openai, model := "gpt-4" }
